import Mathlib

/-!
Verification development for the receipt-scanner expense pipeline.

The subject is the `/api/scan-receipt` route (`analyzeReceiptWithGemini`,
`POST`) together with the `Expense` mongoose model (enums and schema).
JavaScript values flowing through the route are embedded as `JsValue`;
numbers are embedded as rationals (`ℚ`), with `Option ℚ` wherever a JS
number may be `NaN` (`none` stands for `NaN`).  The JS builtins the route
calls (`JSON.parse`, `parseFloat`, property access, `||`, truthiness) are
given executable models below; each model's doc comment states its scope.
-/

namespace ReceiptScanner

set_option allowUnsafeReducibility true in
attribute [semireducible] Rat.add Rat.mul Rat.sub Rat.inv Rat.ofScientific

/-- A JavaScript value as it can occur in the route's data flow: `undefined`
mirrors `undefined` (e.g. a missing property), the rest mirror the JSON
value universe.  `NaN` never occurs inside decoded JSON, so it is kept out
of this type and tracked as `Option ℚ` at use sites. -/
inductive JsValue where
  | undefined : JsValue
  | null : JsValue
  | bool : Bool → JsValue
  | num : ℚ → JsValue
  | str : String → JsValue
  | arr : List JsValue → JsValue
  | obj : List (String × JsValue) → JsValue
deriving Repr, Inhabited

/-- JavaScript truthiness: `undefined`, `null`, `false`, `0`, and `""` are
falsy; every other value (including any array or object) is truthy. -/
def truthy : JsValue → Bool
  | .undefined => false
  | .null => false
  | .bool b => b
  | .num q => if q = 0 then false else true
  | .str s => if s = "" then false else true
  | .arr _ => true
  | .obj _ => true

/-- The JS expression `a || b`: `a` when truthy, otherwise `b`. -/
def jsOr (a b : JsValue) : JsValue := if truthy a then a else b

/-- Look a key up in an object's member list (first binding wins; the JSON
decoder below keeps at most one binding per key). -/
def lookupProp : List (String × JsValue) → String → JsValue
  | [], _ => .undefined
  | (k, v) :: rest, key => if k = key then v else lookupProp rest key

/-- Property read `v[key]` on a value that is not `null`/`undefined`:
objects yield the bound value or `undefined`; primitives and arrays yield
`undefined` for the property names the route reads. -/
def getProp : JsValue → String → JsValue
  | .obj props, key => lookupProp props key
  | _, _ => .undefined

/-- The values a property read throws a `TypeError` on: `null` and
`undefined`. -/
def jsNullish : JsValue → Bool
  | .null => true
  | .undefined => true
  | _ => false

/-- The whitespace class skipped by `parseFloat` (modelled on the ASCII
part of JS StrWhiteSpace). -/
def jsStrWs (c : Char) : Bool :=
  c == ' ' || c == '\t' || c == '\n' || c == '\r' || c == '\x0b' || c == '\x0c'

/-- Numeric value of a decimal digit character. -/
def digitVal (c : Char) : ℕ := c.toNat - '0'.toNat

/-- Decimal digits to a natural number (most significant first). -/
def digitsToNat (ds : List Char) : ℕ :=
  ds.foldl (fun acc c => 10 * acc + digitVal c) 0

/-- Ten to an integer power over ℚ, kept executable. -/
def pow10Z (e : ℤ) : ℚ :=
  if 0 ≤ e then ((10 : ℚ) ^ e.toNat) else 1 / (10 : ℚ) ^ (-e).toNat

/-- Exponent suffix of a decimal literal, after the `e`/`E` marker: an
optional sign and at least one digit; `none` when the digits are missing,
in which case `parseFloat` ignores the exponent marker altogether. -/
def parseExpPart (s : List Char) : Option ℤ :=
  let (sgn, s1) : ℤ × List Char :=
    match s with
    | '+' :: r => (1, r)
    | '-' :: r => (-1, r)
    | r => (1, r)
  let ds := s1.takeWhile Char.isDigit
  if ds.isEmpty then none else some (sgn * (digitsToNat ds : ℤ))

/-- Leading sign of a decimal literal: `true` for a consumed `-`, `false`
for a consumed `+` or no sign. -/
def splitSign (t : List Char) : Bool × List Char :=
  match t with
  | c :: r =>
      if c == '-' then (true, r)
      else if c == '+' then (false, r)
      else (false, c :: r)
  | [] => (false, [])

/-- Fraction part of a decimal literal: the digits after a leading dot
(possibly zero of them — `parseFloat` accepts `5.`), and the rest. -/
def splitFrac (t : List Char) : List Char × List Char :=
  match t with
  | '.' :: r => (r.takeWhile Char.isDigit, r.drop (r.takeWhile Char.isDigit).length)
  | _ => ([], t)

/-- Exponent of a decimal literal at this position, `0` when the marker or
its digits are absent. -/
def expOf (t : List Char) : ℤ :=
  match t with
  | 'e' :: r => (parseExpPart r).getD 0
  | 'E' :: r => (parseExpPart r).getD 0
  | _ => 0

/-- Model of the JS builtin `parseFloat` on a string: skip leading
whitespace, read an optional sign and the longest decimal-literal prefix
(`digits [. digits] [e/E [sign] digits]`), and ignore any trailing
characters; `none` models the `NaN` result when no digits are found.
Scope: finite decimal literals only — the `Infinity` spellings, which the
route's data never produces, are treated as unparseable. -/
def jsParseFloat (s : String) : Option ℚ :=
  let t0 := s.toList.dropWhile jsStrWs
  let sg := splitSign t0
  let ip := sg.2.takeWhile Char.isDigit
  let fr := splitFrac (sg.2.drop ip.length)
  if ip.isEmpty && fr.1.isEmpty then none
  else
    let mantissa : ℚ := (digitsToNat ip : ℚ) + (digitsToNat fr.1 : ℚ) / (10 : ℚ) ^ fr.1.length
    let mag := mantissa * pow10Z (expOf fr.2)
    some (if sg.1 then -mag else mag)

/-- Decimal rendering of a rational whose denominator divides a power of
ten (every number the JSON decoder or `parseFloat` can produce is of this
shape); used only to model JS number-to-string inside array joining. -/
def ratToJsString (q : ℚ) : String :=
  let sgn := if q < 0 then "-" else ""
  let a := |q|
  match (List.range 40).find? (fun k => (a * (10 : ℚ) ^ k).den == 1) with
  | some k =>
      let n := (a * (10 : ℚ) ^ k).num.toNat
      if k = 0 then sgn ++ toString n
      else
        let ds := toString n
        let ds := if ds.length < k + 1 then String.mk (List.replicate (k + 1 - ds.length) '0') ++ ds else ds
        sgn ++ ds.take (ds.length - k) ++ "." ++ ds.drop (ds.length - k)
  | none => sgn ++ toString a.num ++ "/" ++ toString a.den

mutual
/-- String conversion of an array element during `Array.prototype.join`:
`null` and `undefined` render as the empty string. -/
def jsToStringElem : JsValue → String
  | .undefined => ""
  | .null => ""
  | .bool b => if b then "true" else "false"
  | .num q => ratToJsString q
  | .str s => s
  | .arr l => String.intercalate "," (jsToStringList l)
  | .obj _ => "[object Object]"

/-- Elementwise rendering of an array's members for `join(",")`. -/
def jsToStringList : List JsValue → List String
  | [] => []
  | x :: xs => jsToStringElem x :: jsToStringList xs
end

/-- Model of JS `ToString` on the values the route can feed to
`parseFloat`: primitives render canonically, arrays join with commas,
plain objects render as `[object Object]`. -/
def jsToString : JsValue → String
  | .undefined => "undefined"
  | .null => "null"
  | .bool b => if b then "true" else "false"
  | .num q => ratToJsString q
  | .str s => s
  | .arr l => String.intercalate "," (jsToStringList l)
  | .obj _ => "[object Object]"

/-- The builtin `parseFloat` on an arbitrary value: numbers pass through exactly
(JS round-trips a finite number through its string form), everything else
goes through `ToString` then the string-level `parseFloat`. -/
def jsParseFloatV : JsValue → Option ℚ
  | .num q => some q
  | v => jsParseFloat (jsToString v)

/-- The route's recurring idiom `parseFloat(v) || d`: the parsed number,
except that both `NaN` and `0` (being falsy) are replaced by the default. -/
def jsNumOr (v : JsValue) (d : ℚ) : ℚ :=
  match jsParseFloatV v with
  | some q => if q = 0 then d else q
  | none => d

/-! ### A model of the JS builtin `JSON.parse`

`analyzeReceiptWithGemini` feeds the regex-matched substring to
`JSON.parse`; a thrown `SyntaxError` is what sends control to the Tier-2
fallback.  The decoder below follows the JSON grammar (RFC 8259): strict
numbers, quoted strings with escapes, arrays, objects (a duplicated key
keeps the later value, as in JS), and no trailing garbage.  Recursion is
by an explicit fuel so the decoder is a plain total function. -/

/-- The insignificant-whitespace class of the JSON grammar. -/
def jsonWs (c : Char) : Bool := c == ' ' || c == '\t' || c == '\n' || c == '\r'

/-- Drop leading JSON whitespace. -/
def dropJsonWs (s : List Char) : List Char := s.dropWhile jsonWs

/-- Hexadecimal digit value, for the `\u` escape form. -/
def hexDigitVal (c : Char) : Option ℕ :=
  let n := c.toNat
  if 48 ≤ n ∧ n ≤ 57 then some (n - 48)
  else if 97 ≤ n ∧ n ≤ 102 then some (n - 87)
  else if 65 ≤ n ∧ n ≤ 70 then some (n - 55)
  else none

/-- The single-character escapes of the JSON string grammar (everything
except the `\u` form), as an if-chain over the escape letter. -/
def escChar (c : Char) : Option Char :=
  if c == 'n' then some '\n'
  else if c == 't' then some '\t'
  else if c == 'r' then some '\r'
  else if c == 'b' then some '\x08'
  else if c == 'f' then some '\x0c'
  else if c == '"' then some '"'
  else if c == '/' then some '/'
  else if c == '\\' then some '\\'
  else none

/-- Combine four hex digits into a code point, failing on a non-digit. -/
def hexQuad (a b c d : Char) : Option ℕ :=
  (hexDigitVal a).bind fun x =>
    (hexDigitVal b).bind fun y =>
      (hexDigitVal c).bind fun z =>
        (hexDigitVal d).map fun w => 4096 * x + 256 * y + 16 * z + w

/-- Body of a JSON string, after the opening quote: characters up to the
closing quote, with the escape sequences of the grammar; unescaped control
characters are rejected.  Returns the decoded text and the rest. -/
def jsonStringBody (acc : List Char) : List Char → Option (String × List Char)
  | [] => none
  | c :: rest =>
      if c == '"' then some (String.mk acc.reverse, rest)
      else if c == '\\' then
        match rest with
        | 'u' :: h1 :: h2 :: h3 :: h4 :: rest2 =>
            (hexQuad h1 h2 h3 h4).bind fun n =>
              jsonStringBody (Char.ofNat n :: acc) rest2
        | e :: rest2 =>
            (escChar e).bind fun ch => jsonStringBody (ch :: acc) rest2
        | [] => none
      else if c.toNat < 32 then none
      else jsonStringBody (c :: acc) rest

/-- A strict JSON number at the head of the input: optional minus, an
integer part with no leading zero, optional fraction, optional exponent.
Returns the value and the rest of the input. -/
def jsonNumberAt (s : List Char) : Option (ℚ × List Char) :=
  let (neg, t1) : Bool × List Char :=
    match s with
    | '-' :: r => (true, r)
    | r => (false, r)
  let ip := t1.takeWhile Char.isDigit
  if ip.isEmpty then none
  else if 1 < ip.length && ip.headD '0' = '0' then none
  else
    let t2 := t1.drop ip.length
    let fracRes : Option (List Char × List Char) :=
      match t2 with
      | '.' :: r =>
          let fp := r.takeWhile Char.isDigit
          if fp.isEmpty then none else some (fp, r.drop fp.length)
      | _ => some ([], t2)
    match fracRes with
    | none => none
    | some (fp, t3) =>
      let expRes : Option (ℤ × List Char) :=
        match t3 with
        | 'e' :: r =>
          match parseExpPart r with
          | some e => some (e, (r.dropWhile (fun c => c == '+' || c == '-')).dropWhile Char.isDigit)
          | none => none
        | 'E' :: r =>
          match parseExpPart r with
          | some e => some (e, (r.dropWhile (fun c => c == '+' || c == '-')).dropWhile Char.isDigit)
          | none => none
        | _ => some (0, t3)
      match expRes with
      | none => none
      | some (e, t4) =>
        let mantissa : ℚ := (digitsToNat ip : ℚ) + (digitsToNat fp : ℚ) / (10 : ℚ) ^ fp.length
        let mag := mantissa * pow10Z e
        some (if neg then -mag else mag, t4)

/-- Insert a member into an object's binding list: a duplicated key keeps
its original position but takes the later value, as `JSON.parse` does. -/
def insertProp : List (String × JsValue) → String → JsValue → List (String × JsValue)
  | [], k, v => [(k, v)]
  | (k0, v0) :: rest, k, v =>
      if k0 = k then (k0, v) :: rest else (k0, v0) :: insertProp rest k v

/-- Consume the tail of a keyword literal (`null`, `true`, `false`) whose
head character was already matched. -/
def litTail (lit : String) (s : List Char) : Option (List Char) :=
  if lit.toList.isPrefixOf s then some (s.drop lit.length) else none

mutual
/-- One JSON value at the head of the input (leading whitespace allowed),
returning it and the unconsumed rest; `none` models a `SyntaxError`. -/
def jsonValueAt : ℕ → List Char → Option (JsValue × List Char)
  | 0, _ => none
  | Nat.succ fuel, s =>
    match dropJsonWs s with
    | [] => none
    | c :: u =>
      if c == 'n' then (litTail "ull" u).map fun r => (JsValue.null, r)
      else if c == 't' then (litTail "rue" u).map fun r => (JsValue.bool true, r)
      else if c == 'f' then (litTail "alse" u).map fun r => (JsValue.bool false, r)
      else if c == '"' then
        (jsonStringBody [] u).map fun p => (JsValue.str p.1, p.2)
      else if c == '[' then
        match dropJsonWs u with
        | ']' :: rest2 => some (.arr [], rest2)
        | rest2 => jsonElems fuel rest2 []
      else if c == '{' then
        match dropJsonWs u with
        | '}' :: rest2 => some (.obj [], rest2)
        | rest2 => jsonMembers fuel rest2 []
      else
        (jsonNumberAt (c :: u)).map fun p => (JsValue.num p.1, p.2)

/-- The members of a JSON object, after the opening brace and any leading
whitespace, accumulating decoded bindings. -/
def jsonMembers : ℕ → List Char → List (String × JsValue) → Option (JsValue × List Char)
  | 0, _, _ => none
  | Nat.succ fuel, s, acc =>
    match s with
    | '"' :: rest =>
      match jsonStringBody [] rest with
      | some (key, rest2) =>
        match dropJsonWs rest2 with
        | ':' :: rest3 =>
          match jsonValueAt fuel rest3 with
          | some (v, rest4) =>
            match dropJsonWs rest4 with
            | ',' :: rest5 => jsonMembers fuel (dropJsonWs rest5) (insertProp acc key v)
            | '}' :: rest5 => some (.obj (insertProp acc key v), rest5)
            | _ => none
          | none => none
        | _ => none
      | none => none
    | _ => none

/-- The elements of a JSON array, after the opening bracket and any
leading whitespace, accumulating decoded values. -/
def jsonElems : ℕ → List Char → List JsValue → Option (JsValue × List Char)
  | 0, _, _ => none
  | Nat.succ fuel, s, acc =>
    match jsonValueAt fuel s with
    | some (v, rest) =>
      match dropJsonWs rest with
      | ',' :: rest2 => jsonElems fuel rest2 (acc ++ [v])
      | ']' :: rest2 => some (.arr (acc ++ [v]), rest2)
      | _ => none
    | none => none
end

/-- Model of `JSON.parse`: decode one JSON value and require that only
whitespace follows; `none` models the thrown `SyntaxError`.  The fuel is
amply larger than any recursion the input's length can drive. -/
def jsonDecode (s : String) : Option JsValue :=
  let cs := s.toList
  match jsonValueAt (4 * cs.length + 4) cs with
  | some (v, rest) => if (dropJsonWs rest).isEmpty then some v else none
  | none => none

/-! ### The Expense model's closed enumerations (models/Expense.ts)

`Object.values(ExpenseCategory)`, `Object.values(PaymentMethod)` and
`Object.values(ExpenseType)` as the route consumes them. -/

/-- The 17 category labels of the `ExpenseCategory` enum, in declaration
order. -/
def ExpenseCategoryValues : List String :=
  ["Food & Dining", "Groceries", "Transportation", "Utilities",
   "Entertainment", "Healthcare", "Shopping", "Travel", "Education",
   "Business", "Home & Maintenance", "Subscriptions", "Insurance",
   "Taxes", "Gifts & Donations", "Personal Care", "Other"]

/-- The 7 payment-method labels of the `PaymentMethod` enum. -/
def PaymentMethodValues : List String :=
  ["Cash", "Credit Card", "Debit Card", "Bank Transfer",
   "Digital Wallet", "Check", "Other"]

/-- The 3 labels of the `ExpenseType` enum. -/
def ExpenseTypeValues : List String := ["Personal", "Business", "Tax Deductible"]

/-- The route's enum gate, `Object.values(E).includes(x) ? x : E.OTHER`:
`includes` compares with strict equality, so only a string equal to one of
the labels passes; any other value (other case, other type) yields the
`Other` label. -/
def validateEnum (labels : List String) (v : JsValue) : String :=
  match v with
  | .str s => if s ∈ labels then s else "Other"
  | _ => "Other"

/-! ### The shape `analyzeReceiptWithGemini` resolves with -/

/-- One normalized line item (`ILineItem` without the optional category,
which the route never sets): `name` keeps the raw truthy value as JS does,
the numbers come out of `parseFloat(_) || default`. -/
structure ILineItem where
  name : JsValue
  quantity : ℚ
  unitPrice : ℚ
  totalPrice : ℚ
deriving Repr

/-- The object `analyzeReceiptWithGemini` resolves with.  Fields keep the
looseness of the code: `||`-defaulted fields hold whatever truthy value
the model supplied (`JsValue`), `parseFloat(_) || 0` fields are plain
numbers, `tip`/`discount` are `undefined` or a possibly-`NaN` number
(`Option (Option ℚ)`, outer `none` = `undefined`, inner `none` = `NaN`),
and `total` is a possibly-`NaN` number because the Tier-2 arm applies
`parseFloat` with no `|| 0` guard. -/
structure ExtractedData where
  vendor : JsValue
  vendorAddress : JsValue
  vendorPhone : JsValue
  date : JsValue
  receiptNumber : JsValue
  subtotal : ℚ
  tax : ℚ
  tip : Option (Option ℚ)
  discount : Option (Option ℚ)
  total : Option ℚ
  currency : JsValue
  category : String
  paymentMethod : String
  lineItems : List ILineItem
  rawText : JsValue
  confidence : ℚ
deriving Repr

/-- Normalization of one raw line item, from the `lineItems.map` callback:
reading a property of a `null` or `undefined` element throws (that is the
only way this can fail); otherwise every field falls back to its default
(`name || 'Unknown Item'`, `parseFloat(quantity) || 1`, prices `|| 0`). -/
def normalizeLineItem (item : JsValue) : Except String ILineItem :=
  if jsNullish item then .error "TypeError"
  else .ok
      { name := jsOr (getProp item "name") (.str "Unknown Item")
        quantity := jsNumOr (getProp item "quantity") 1
        unitPrice := jsNumOr (getProp item "unitPrice") 0
        totalPrice := jsNumOr (getProp item "totalPrice") 0 }

/-- Left-to-right normalization of the raw line-item list, stopping at the
first element that throws — the effect order of `Array.prototype.map` with
a callback that can throw. -/
def mapLineItems : List JsValue → Except String (List ILineItem)
  | [] => .ok []
  | item :: rest =>
      match normalizeLineItem item with
      | .error e => .error e
      | .ok li =>
          match mapLineItems rest with
          | .error e => .error e
          | .ok lis => .ok (li :: lis)

/-- The builtin `Math.max` on two (non-`NaN`) numbers. -/
def jsMax (a b : ℚ) : ℚ := if a ≤ b then b else a

/-- The builtin `Math.min` on two (non-`NaN`) numbers. -/
def jsMin (a b : ℚ) : ℚ := if a ≤ b then a else b

/-- The confidence rule at the end of the Tier-1 return object:
`Math.min(Math.max(parseFloat(c) || 0.5, 0), 1)` — parse, default `NaN`
and `0` to `0.5`, then clamp into `[0, 1]`. -/
def normalizeConfidence (v : JsValue) : ℚ :=
  jsMin (jsMax (jsNumOr v (1/2)) 0) 1

/-- The `lineItems` entry of the Tier-1 return object:
`Array.isArray(x) ? x.map(normalize) : []`; the map can throw. -/
def tier1LineItems (parsedData : JsValue) : Except String (List ILineItem) :=
  match getProp parsedData "lineItems" with
  | .arr items => mapLineItems items
  | _ => .ok []

/-- The field-by-field content of the Tier-1 return object, given the
already-normalized line items; every entry here is a pure computation
mirroring one line of the return literal.  `today` stands for
`new Date().toISOString().split('T')[0]` at processing time. -/
def tier1Record (parsedData : JsValue) (responseText today : String)
    (lineItems : List ILineItem) : ExtractedData :=
  { vendor := jsOr (getProp parsedData "vendor") (.str "Unknown Vendor")
    vendorAddress := jsOr (getProp parsedData "vendorAddress") .undefined
    vendorPhone := jsOr (getProp parsedData "vendorPhone") .undefined
    date := jsOr (getProp parsedData "date") (.str today)
    receiptNumber := jsOr (getProp parsedData "receiptNumber") .undefined
    subtotal := jsNumOr (getProp parsedData "subtotal") 0
    tax := jsNumOr (getProp parsedData "tax") 0
    tip :=
      if truthy (getProp parsedData "tip")
      then some (jsParseFloatV (getProp parsedData "tip")) else none
    discount :=
      if truthy (getProp parsedData "discount")
      then some (jsParseFloatV (getProp parsedData "discount")) else none
    total := some (jsNumOr (getProp parsedData "total") 0)
    currency := jsOr (getProp parsedData "currency") (.str "USD")
    category := validateEnum ExpenseCategoryValues (getProp parsedData "category")
    paymentMethod := validateEnum PaymentMethodValues (getProp parsedData "paymentMethod")
    lineItems := lineItems
    rawText := jsOr (getProp parsedData "rawText") (.str responseText)
    confidence := normalizeConfidence (getProp parsedData "confidence") }

/-- The Tier-1 return object of `analyzeReceiptWithGemini`, built from the
decoded JSON value.  A property read on the decoded value throws only when
that value is `null`/`undefined` (the leading guard captures exactly the
reads' failure condition; every other per-field computation is pure), so
the one residual failure source is line-item normalization, which throws
on a `null`/`undefined` array element. -/
def tier1Normalize (parsedData : JsValue) (responseText today : String) :
    Except String ExtractedData :=
  if jsNullish parsedData then .error "TypeError"
  else (tier1LineItems parsedData).map (tier1Record parsedData responseText today)

/-! ### The Tier-2 fallback's line-oriented matching

The three regexes `/(?:vendor|store):\s*(.+)/i`, `/date:\s*(.+)/i` and
`/total:\s*([0-9.]+)/i` are modelled directly: leftmost match position,
first viable alternative, greedy `\s*` with the one backtracking step the
`(.+)` tail can force. -/

/-- Case-insensitive test that `pat` is a prefix of `s` (regex `i` flag
over the ASCII labels involved here). -/
def matchesCI : List Char → List Char → Bool
  | [], _ => true
  | _ :: _, [] => false
  | p :: ps, c :: cs => p.toLower == c.toLower && matchesCI ps cs

/-- The line terminators that the regex metacharacter `.` refuses to
match (the ASCII ones; the Unicode pair is outside the model's scope). -/
def lineTerm (c : Char) : Bool := c == '\n' || c == '\r'

/-- The regex tail `\s*(.+)` applied at a position: greedily skip
whitespace and capture the rest of the line; when only whitespace remains,
the engine backtracks `\s*` so that `.+` can still take the last
non-line-terminator whitespace character.  `none` when nothing matches,
which makes the engine resume scanning at later positions. -/
def dotPlusTail (t : List Char) : Option (List Char) :=
  match t.dropWhile jsStrWs with
  | [] =>
      match t.reverse.dropWhile lineTerm with
      | [] => none
      | c :: _ => some [c]
  | c :: rest => some ((c :: rest).takeWhile (fun c => !(lineTerm c)))

/-- Model of `String.prototype.trim`: strip leading and trailing
whitespace (the same ASCII whitespace class used elsewhere). -/
def jsTrim (s : String) : String :=
  String.mk (((s.toList.dropWhile jsStrWs).reverse.dropWhile jsStrWs).reverse)

/-- Membership in the regex class `[0-9.]`. -/
def digitDot (c : Char) : Bool := c.isDigit || c == '.'

/-- The regex tail `\s*([0-9.]+)` applied at a position: skip whitespace,
then require at least one `[0-9.]` character (no whitespace char is in the
class, so backtracking can never help). -/
def numTail (t : List Char) : Option (List Char) :=
  match t.dropWhile jsStrWs with
  | c :: rest => if digitDot c then some ((c :: rest).takeWhile digitDot) else none
  | [] => none

/-- Leftmost-match scan of the whole subject, as `String.prototype.match`
does with a non-global regex: try the pattern at each position and return
the first capture. -/
def scanFor (tryHere : List Char → Option (List Char)) : List Char → Option (List Char)
  | [] => none
  | c :: rest =>
      match tryHere (c :: rest) with
      | some g => some g
      | none => scanFor tryHere rest

/-- The pattern `(?:vendor|store):\s*(.+)` at one position, alternatives
in regex order. -/
def vendorHere (s : List Char) : Option (List Char) :=
  if matchesCI "vendor:".toList s then dotPlusTail (s.drop 7)
  else if matchesCI "store:".toList s then dotPlusTail (s.drop 6)
  else none

/-- The pattern `date:\s*(.+)` at one position. -/
def dateHere (s : List Char) : Option (List Char) :=
  if matchesCI "date:".toList s then dotPlusTail (s.drop 5) else none

/-- The pattern `total:\s*([0-9.]+)` at one position. -/
def totalHere (s : List Char) : Option (List Char) :=
  if matchesCI "total:".toList s then numTail (s.drop 6) else none

/-- The Tier-2 fallback return object: independent line-pattern matches
for vendor, date and total over the raw text, hard defaults everywhere
else, confidence pinned at `0.3`. -/
def tier2Fallback (responseText today : String) : ExtractedData :=
  let cs := responseText.toList
  { vendor :=
      match scanFor vendorHere cs with
      | some g => .str (jsTrim (String.mk g))
      | none => .str "Unknown Vendor"
    vendorAddress := .undefined
    vendorPhone := .undefined
    date :=
      match scanFor dateHere cs with
      | some g => .str (jsTrim (String.mk g))
      | none => .str today
    receiptNumber := .undefined
    subtotal := 0
    tax := 0
    tip := none
    discount := none
    total :=
      match scanFor totalHere cs with
      | some g => jsParseFloat (String.mk g)
      | none => some 0
    currency := .str "USD"
    category := "Other"
    paymentMethod := "Other"
    lineItems := []
    rawText := .str responseText
    confidence := 3/10 }

/-- The greedy Tier-1 probe `responseText.match(/\{[\s\S]*\}/)`: the
substring from the first opening brace to the last closing brace after
it, when both exist. -/
def jsonCandidate (s : String) : Option String :=
  let cs := s.toList
  match cs.findIdx? (fun c => c == '{'), cs.reverse.findIdx? (fun c => c == '}') with
  | some i, some k =>
      let j := cs.length - 1 - k
      if i < j then some (String.mk ((cs.drop i).take (j - i + 1))) else none
  | _, _ => none

/-- The response-processing core of `analyzeReceiptWithGemini`, from the
extracted `responseText` on (the network call and API-key check sit above
this and are outside the model).  The `try` block covers the regex probe,
`JSON.parse`, and the building of the Tier-1 return object; any throw in
it — a `SyntaxError` from the decoder or a `TypeError` from line-item
normalization — is caught and control falls to the Tier-2 fallback, as it
also does when the probe finds no brace pair.  The `Except` result records
that the function can only resolve (`.ok`), never reject, past this
point. -/
def analyzeReceiptWithGemini (responseText today : String) :
    Except String ExtractedData :=
  match jsonCandidate responseText with
  | some sub =>
    match jsonDecode sub with
    | some parsedData =>
      match tier1Normalize parsedData responseText today with
      | .ok r => .ok r
      | .error _ => .ok (tier2Fallback responseText today)
    | none => .ok (tier2Fallback responseText today)
  | none => .ok (tier2Fallback responseText today)

/-! ### The POST handler's two `Expense.create` arguments

Both branches of `POST` build an object literal and hand it to
`Expense.create`.  `ExpenseInput` is that literal's shape; fields the scan
branch omits are `undefined`.  The `createdAt`/`updatedAt` stamps (always
`new Date()` at the call) are outside the modelled input. -/

/-- The argument object handed to `Expense.create` by either branch of
`POST`.  `dateArg` is the value passed to the `new Date(...)` cast; the
numeric fields mirror the JS numbers (`Option ℚ` inner layers stand for
`NaN`, as elsewhere); `lineItemsV` carries the raw caller value on the
manual branch and the normalized items (re-encoded) on the scan branch. -/
structure ExpenseInput where
  vendor : JsValue
  vendorAddress : JsValue
  vendorPhone : JsValue
  dateArg : JsValue
  receiptNumber : JsValue
  subtotal : Option ℚ
  tax : Option ℚ
  tip : Option (Option ℚ)
  discount : Option (Option ℚ)
  total : Option ℚ
  currency : JsValue
  category : JsValue
  paymentMethod : JsValue
  expenseType : String
  lineItemsV : JsValue
  descriptionV : JsValue
  notes : JsValue
  tags : JsValue
  isRecurring : JsValue
  recurringFrequency : JsValue
  rawText : JsValue
  imageUrl : JsValue
  confidence : Option ℚ
  isBusinessExpense : JsValue
  isTaxDeductible : JsValue
  projectId : JsValue
  clientId : JsValue
  source : String
deriving Repr, Inhabited

/-- The manual branch of `POST` (`body.manual === true`): each field is
the caller's value behind a `||` default or a `parseFloat(_) || 0`;
`expenseType` is pinned to `Personal`, `confidence` to `1`, `source` to
`manual`.  No enum gate and no line-item normalization run here.  Reading
a property of a non-object body would throw, hence the `Except`. -/
def manualExpenseInput (body : JsValue) : Except String ExpenseInput :=
  if jsNullish body then .error "TypeError"
  else .ok
      { vendor := jsOr (getProp body "vendor") (.str "Manual Entry")
        vendorAddress := jsOr (getProp body "vendorAddress") (.str "")
        vendorPhone := jsOr (getProp body "vendorPhone") (.str "")
        dateArg := getProp body "date"
        receiptNumber := jsOr (getProp body "receiptNumber") (.str "")
        subtotal := some (jsNumOr (getProp body "subtotal") 0)
        tax := some (jsNumOr (getProp body "tax") 0)
        tip := some (some (jsNumOr (getProp body "tip") 0))
        discount := some (some (jsNumOr (getProp body "discount") 0))
        total := some (jsNumOr (getProp body "total") 0)
        currency := jsOr (getProp body "currency") (.str "USD")
        category := jsOr (getProp body "category") (.str "Other")
        paymentMethod := jsOr (getProp body "paymentMethod") (.str "Other")
        expenseType := "Personal"
        lineItemsV := jsOr (getProp body "lineItems") (.arr [])
        notes := jsOr (getProp body "notes") (.str "")
        descriptionV := jsOr (getProp body "description") (.str "")
        tags := jsOr (getProp body "tags") (.arr [])
        isRecurring := jsOr (getProp body "isRecurring") (.bool false)
        recurringFrequency := jsOr (getProp body "recurringFrequency") (.str "")
        rawText := jsOr (getProp body "rawText") (.str "")
        imageUrl := jsOr (getProp body "imageUrl") (.str "")
        confidence := some 1
        isBusinessExpense := jsOr (getProp body "isBusinessExpense") (.bool false)
        isTaxDeductible := jsOr (getProp body "isTaxDeductible") (.bool false)
        projectId := jsOr (getProp body "projectId") (.str "")
        clientId := jsOr (getProp body "clientId") (.str "")
        source := "manual" }

/-- Re-encoding of a normalized line item inside the scan branch's create
argument (the JS value it holds at that point). -/
def encodeLineItem (li : ILineItem) : JsValue :=
  .obj [("name", li.name), ("quantity", .num li.quantity),
        ("unitPrice", .num li.unitPrice), ("totalPrice", .num li.totalPrice)]

/-- The scan branch of `POST`: the create argument built from the
extraction result; `expenseType` pinned to `Personal`, `tags` empty,
`isRecurring`/business flags `false`, `source` `scan`; `description`,
`notes`, `recurringFrequency`, `projectId` and `clientId` are not
mentioned in the literal, hence `undefined`. -/
def scanExpenseInput (extractedData : ExtractedData) (imageUrl : String) : ExpenseInput :=
  { vendor := extractedData.vendor
    vendorAddress := extractedData.vendorAddress
    vendorPhone := extractedData.vendorPhone
    dateArg := extractedData.date
    receiptNumber := extractedData.receiptNumber
    subtotal := some extractedData.subtotal
    tax := some extractedData.tax
    tip := extractedData.tip
    discount := extractedData.discount
    total := extractedData.total
    currency := extractedData.currency
    category := .str extractedData.category
    paymentMethod := .str extractedData.paymentMethod
    expenseType := "Personal"
    lineItemsV := .arr (extractedData.lineItems.map encodeLineItem)
    descriptionV := .undefined
    notes := .undefined
    tags := .arr []
    isRecurring := .bool false
    recurringFrequency := .undefined
    rawText := extractedData.rawText
    imageUrl := .str imageUrl
    confidence := some extractedData.confidence
    isBusinessExpense := .bool false
    isTaxDeductible := .bool false
    projectId := .undefined
    clientId := .undefined
    source := "scan" }

/-! ### The mongoose `ExpenseSchema` validation at `create`

`Expense.create` casts and validates the input against the schema in
models/Expense.ts; a failure rejects the create (the route then answers
500 with no record written). -/

/-- Calendar-date shape `YYYY-MM-DD`.  Used to model the validity of the
`new Date(string)` cast for the string shapes this route passes around:
the ISO dates the pipeline produces parse, while a non-date word like
`not-a-date` yields an Invalid Date that the schema's date cast rejects.
Other historically-parseable JS date spellings are outside the model's
scope. -/
def isIsoDate (s : String) : Bool :=
  match s.toList with
  | [a, b, c, d, e, f, g, h, i, j] =>
      a.isDigit && b.isDigit && c.isDigit && d.isDigit && e == '-' &&
      f.isDigit && g.isDigit && h == '-' && i.isDigit && j.isDigit &&
      decide (1 ≤ 10 * digitVal f + digitVal g ∧ 10 * digitVal f + digitVal g ≤ 12) &&
      decide (1 ≤ 10 * digitVal i + digitVal j ∧ 10 * digitVal i + digitVal j ≤ 31)
  | _ => false

/-- Validity of the `new Date(v)` cast the schema's `date` field performs:
ISO date strings and numeric timestamps produce a valid date; `null`,
`undefined` and unparseable strings do not. -/
def jsDateValid (v : JsValue) : Bool :=
  match v with
  | .str s => isIsoDate s
  | .num _ => true
  | _ => false

/-- A `required` string field: a nonempty string passes, a number casts to
its (nonempty) decimal spelling, everything else fails the cast or the
required check (mongoose counts the empty string as missing). -/
def requiredString (v : JsValue) : Bool :=
  match v with
  | .str s => !(s == "")
  | .num _ => true
  | _ => false

/-- A `required` string field that also carries a schema default: absence
triggers the default instead of failing. -/
def requiredStringDefault (v : JsValue) : Bool :=
  match v with
  | .undefined => true
  | v => requiredString v

/-- A `required` number with a `min: 0` bound (`NaN`, i.e. `none`, fails
the bound). -/
def requiredMin0 (n : Option ℚ) : Bool :=
  match n with
  | some q => decide (0 ≤ q)
  | none => false

/-- An optional number with a `min: 0` bound: absence passes, a present
number must be `≥ 0`, `NaN` fails. -/
def optionalMin0 (n : Option (Option ℚ)) : Bool :=
  match n with
  | none => true
  | some (some q) => decide (0 ≤ q)
  | some none => false

/-- An enum-constrained string field with a schema default: absence takes
the default; a present value must be a string among the labels. -/
def enumField (labels : List String) (v : JsValue) : Bool :=
  match v with
  | .undefined => true
  | .str s => s ∈ labels
  | _ => false

/-- One line item against `LineItemSchema`: `name` required string,
`quantity` a number (or absent, taking the default 1), `unitPrice` and
`totalPrice` required numbers; the sub-schema declares no `min`. -/
def lineItemFieldsOk (v : JsValue) : Bool :=
  match v with
  | .obj _ =>
      requiredString (getProp v "name") &&
      (match getProp v "quantity" with | .num _ => true | .undefined => true | _ => false) &&
      (match getProp v "unitPrice" with | .num _ => true | _ => false) &&
      (match getProp v "totalPrice" with | .num _ => true | _ => false)
  | _ => false

/-- The `lineItems` array against the schema: absent defaults to empty,
otherwise every element must satisfy the sub-schema. -/
def lineItemsOk (v : JsValue) : Bool :=
  match v with
  | .undefined => true
  | .arr items => items.all lineItemFieldsOk
  | _ => false

/-- Model of the `ExpenseSchema` validation run by `Expense.create` on the
route's input: required/cast checks, the `min: 0` bounds on the monetary
fields, the `0..1` bound on confidence, the enum constraints, and the
`source` discriminator.  `true` means the create succeeds and the record
is stored; `false` means a `ValidationError` rejects it. -/
def expenseSchemaValidates (e : ExpenseInput) : Bool :=
  requiredString e.vendor &&
  jsDateValid e.dateArg &&
  requiredMin0 e.subtotal &&
  requiredMin0 e.tax &&
  optionalMin0 e.tip &&
  optionalMin0 e.discount &&
  requiredMin0 e.total &&
  requiredStringDefault e.currency &&
  enumField ExpenseCategoryValues e.category &&
  enumField PaymentMethodValues e.paymentMethod &&
  (e.expenseType ∈ ExpenseTypeValues : Bool) &&
  lineItemsOk e.lineItemsV &&
  requiredString e.rawText &&
  (match e.confidence with | some q => decide (0 ≤ q ∧ q ≤ 1) | none => false) &&
  (e.source == "scan" || e.source == "manual")

/-! ### Statement vocabulary

Executable predicates used only to state properties about the definitions
above, plus the concrete response texts the individual scenarios use. -/

/-- A candidate is nonneg-parsing: `parseFloat` on it yields `NaN` or a
number `≥ 0`. -/
def nonnegCandB (v : JsValue) : Bool :=
  match jsParseFloatV v with
  | some q => decide (0 ≤ q)
  | none => true

/-- Every monetary candidate of a decoded Tier-1 object is nonneg-parsing
(subtotal, tax, tip, discount, total, and each line-item price). -/
def monetaryCandidatesOk (p : JsValue) : Bool :=
  nonnegCandB (getProp p "subtotal") && nonnegCandB (getProp p "tax") &&
  nonnegCandB (getProp p "tip") && nonnegCandB (getProp p "discount") &&
  nonnegCandB (getProp p "total") &&
  (match getProp p "lineItems" with
   | .arr items => items.all (fun it =>
       nonnegCandB (getProp it "unitPrice") && nonnegCandB (getProp it "totalPrice"))
   | _ => true)

/-- All monetary fields of an extraction result are `≥ 0` (an absent or
`NaN` layer of tip/discount/total has no number to be negative). -/
def monetaryFieldsNonneg (r : ExtractedData) : Prop :=
  0 ≤ r.subtotal ∧ 0 ≤ r.tax ∧
  (∀ q, r.tip = some (some q) → 0 ≤ q) ∧
  (∀ q, r.discount = some (some q) → 0 ≤ q) ∧
  (∀ q, r.total = some q → 0 ≤ q) ∧
  (∀ li ∈ r.lineItems, 0 ≤ li.unitPrice ∧ 0 ≤ li.totalPrice)

/-- A model response whose decoded candidate carries a negative subtotal. -/
def negSubtotalResponse : String := "\x7b\"subtotal\": -5, \"total\": 3\x7d"

/-- A model response whose decoded candidate has a `null` line item. -/
def nullItemResponse : String := "\x7b\"vendor\":\"Acme\",\"lineItems\":[null]\x7d"

/-- A model response that decodes fine but whose line-item normalization
throws, with a Tier-2-shaped total line sitting outside the JSON. -/
def leakResponse : String := "\x7b\"lineItems\":[null]\x7d total: 42"

/-- A model response whose date candidate is a non-empty non-date word. -/
def badDateResponse : String := "\x7b\"date\":\"not-a-date\",\"total\":2\x7d"

/-- The spec scenario text with no JSON object at all. -/
def joesDeliResponse : String := "VENDOR: Joe\x27s Deli\nDATE: 2024-03-01\nTOTAL: 12.50"

/-- A model response whose confidence candidate is the number `0`. -/
def zeroConfResponse : String := "\x7b\"confidence\": 0\x7d"

/-- A decodable response whose object lacks the `total` key, with a
Tier-2-shaped total line outside the JSON. -/
def noTotalResponse : String := "\x7b\"a\":1\x7d total: 99"

/-- A fully-populated, fully-valid manual request body, carrying an
`expenseType` and a `confidence` of its own. -/
def fullManualBody : JsValue :=
  .obj [("manual", .bool true), ("vendor", .str "Shop"),
        ("vendorAddress", .str "1 Road"), ("vendorPhone", .str "555-0100"),
        ("date", .str "2024-03-01"), ("receiptNumber", .str "R-17"),
        ("subtotal", .num 10), ("tax", .num 1), ("tip", .num 2),
        ("discount", .num 1), ("total", .num 12), ("currency", .str "USD"),
        ("category", .str "Groceries"), ("paymentMethod", .str "Cash"),
        ("expenseType", .str "Business"), ("lineItems", .arr []),
        ("notes", .str "weekly run"), ("description", .str "groceries"),
        ("tags", .arr [.str "food"]), ("isRecurring", .bool false),
        ("recurringFrequency", .str "weekly"), ("rawText", .str "raw"),
        ("imageUrl", .str "http://img"), ("confidence", .num (7/10)),
        ("isBusinessExpense", .bool true), ("isTaxDeductible", .bool false),
        ("projectId", .str "P1"), ("clientId", .str "C1")]

/-- The record the manual branch builds from `fullManualBody`. -/
def fullManualStored : ExpenseInput :=
  ((manualExpenseInput fullManualBody).toOption).getD default

/-- A manual body whose category is not an enumeration label. -/
def weirdCategoryBody : JsValue :=
  .obj [("manual", .bool true), ("category", .str "Weird")]

/-- The record the manual branch builds from `weirdCategoryBody`. -/
def weirdCategoryStored : ExpenseInput :=
  ((manualExpenseInput weirdCategoryBody).toOption).getD default

/-! ### Helper lemmas -/

/-- A number passed through `parseFloat(x) || 0` survives exactly. -/
theorem jsNumOr_num_zero (q : ℚ) : jsNumOr (.num q) 0 = q := by
  by_cases h : q = 0 <;> simp [jsNumOr, jsParseFloatV, h]

/-- A nonneg-parsing candidate with a nonnegative default yields a
nonnegative number. -/
theorem jsNumOr_nonneg (v : JsValue) (d : ℚ) (hv : nonnegCandB v = true)
    (hd : 0 ≤ d) : 0 ≤ jsNumOr v d := by
  unfold jsNumOr
  unfold nonnegCandB at hv
  cases h : jsParseFloatV v with
  | none => exact hd
  | some q =>
      rw [h] at hv
      have hv' : decide (0 ≤ q) = true := hv
      have hq' := of_decide_eq_true hv'
      show 0 ≤ if q = 0 then d else q
      split
      · exact hd
      · exact hq'

/-- A truthy string survives `||` with any default. -/
theorem jsOr_str (s : String) (w : JsValue) (h : s ≠ "") :
    jsOr (.str s) w = .str s := by
  simp [jsOr, truthy, h]

/-- A string survives `||` with the empty-string default (an empty one is
replaced by the equal default). -/
theorem jsOr_str_empty (s : String) : jsOr (.str s) (.str "") = .str s := by
  by_cases h : s = "" <;> simp [jsOr, truthy, h]

/-- An array is truthy, so it survives `||` with any default. -/
theorem jsOr_arr (l : List JsValue) (w : JsValue) : jsOr (.arr l) w = .arr l := by
  simp [jsOr, truthy]

/-- A boolean survives `|| false` (a false one is replaced by the equal
default). -/
theorem jsOr_bool_false (b : Bool) : jsOr (.bool b) (.bool false) = .bool b := by
  cases b <;> simp [jsOr, truthy]

/-- Ten to any integer power is nonnegative. -/
theorem pow10Z_nonneg (e : ℤ) : 0 ≤ pow10Z e := by
  unfold pow10Z; split <;> positivity

/-- The clamped confidence always lands in the unit interval. -/
theorem normalizeConfidence_mem_unit (v : JsValue) :
    0 ≤ normalizeConfidence v ∧ normalizeConfidence v ≤ 1 := by
  unfold normalizeConfidence jsMin jsMax
  split_ifs with h1 h2 h2 <;> constructor <;> linarith

/-- Eliminating a successful Tier-1 normalization into its two stages. -/
theorem tier1Normalize_ok {p : JsValue} {rt td : String} {r : ExtractedData}
    (h : tier1Normalize p rt td = .ok r) :
    ∃ l, tier1LineItems p = .ok l ∧ r = tier1Record p rt td l := by
  unfold tier1Normalize at h
  split at h
  · exact absurd h (by simp)
  · cases hE : tier1LineItems p with
    | error e => rw [hE] at h; simp [Except.map] at h
    | ok l =>
        rw [hE] at h
        simp only [Except.map, Except.ok.injEq] at h
        exact ⟨l, rfl, h.symm⟩

/-- Every item of a successfully normalized line-item list comes from
normalizing some raw element. -/
theorem mapLineItems_ok_mem {items : List JsValue} {l : List ILineItem}
    (h : mapLineItems items = .ok l) :
    ∀ li ∈ l, ∃ it ∈ items, normalizeLineItem it = .ok li := by
  induction items generalizing l with
  | nil =>
      simp only [mapLineItems, Except.ok.injEq] at h
      subst h; simp
  | cons x xs ih =>
      simp only [mapLineItems] at h
      split at h
      · exact absurd h (by simp)
      · split at h
        · exact absurd h (by simp)
        · rename_i s1 y hy s2 lis hlis
          simp only [Except.ok.injEq] at h
          subst h
          intro li hli
          rcases List.mem_cons.mp hli with hli | hli
          · exact ⟨x, List.mem_cons_self x xs, by rw [hli]; exact hy⟩
          · obtain ⟨it, hit, hn⟩ := ih hlis li hli
            exact ⟨it, List.mem_cons_of_mem x hit, hn⟩

/-- The field content of a successfully normalized line item. -/
theorem normalizeLineItem_ok {it : JsValue} {li : ILineItem}
    (h : normalizeLineItem it = .ok li) :
    li = { name := jsOr (getProp it "name") (.str "Unknown Item")
           quantity := jsNumOr (getProp it "quantity") 1
           unitPrice := jsNumOr (getProp it "unitPrice") 0
           totalPrice := jsNumOr (getProp it "totalPrice") 0 } := by
  unfold normalizeLineItem at h
  split at h
  · exact absurd h (by simp)
  · simp only [Except.ok.injEq] at h
    exact h.symm

/-- Whatever `scanFor` returns was produced by its per-position matcher at
some position. -/
theorem scanFor_some {tryHere : List Char → Option (List Char)}
    {cs g : List Char} (h : scanFor tryHere cs = some g) :
    ∃ s, tryHere s = some g := by
  induction cs with
  | nil => simp [scanFor] at h
  | cons c rest ih =>
      simp only [scanFor] at h
      split at h
      · rename_i g' hg
        exact ⟨c :: rest, by rw [hg, h]⟩
      · exact ih h

/-- A capture of the `\s*([0-9.]+)` tail consists of `[0-9.]` characters. -/
theorem numTail_all {t g : List Char} (h : numTail t = some g) :
    ∀ c ∈ g, digitDot c = true := by
  unfold numTail at h
  split at h
  · split at h
    · simp only [Option.some.injEq] at h
      subst h
      exact fun c hc => List.mem_takeWhile_imp hc
    · exact absurd h (by simp)
  · exact absurd h (by simp)

/-- A capture of the total pattern consists of `[0-9.]` characters. -/
theorem totalHere_all {s g : List Char} (h : totalHere s = some g) :
    ∀ c ∈ g, digitDot c = true := by
  unfold totalHere at h
  split at h
  · exact numTail_all h
  · exact absurd h (by simp)

/-- On digit-and-dot input there is no sign to consume. -/
theorem splitSign_digitDot {t : List Char} (h : ∀ c ∈ t, digitDot c = true) :
    splitSign t = (false, t) := by
  cases t with
  | nil => rfl
  | cons c r =>
      have hc := h c (List.mem_cons_self _ _)
      have h1 : (c == '-') = false := by
        rcases hb : c == '-' with _ | _
        · rfl
        · rw [eq_of_beq hb] at hc; exact absurd hc (by decide)
      have h2 : (c == '+') = false := by
        rcases hb : c == '+' with _ | _
        · rfl
        · rw [eq_of_beq hb] at hc; exact absurd hc (by decide)
      simp [splitSign, h1, h2]

/-- Applying `parseFloat` to a digit-and-dot string never returns a negative
number. -/
theorem jsParseFloat_nonneg {s : String}
    (hs : ∀ c ∈ s.toList, digitDot c = true) :
    ∀ q, jsParseFloat s = some q → 0 ≤ q := by
  intro q h
  have hsub : ∀ c ∈ s.toList.dropWhile jsStrWs, digitDot c = true :=
    fun c hc => hs c ((List.dropWhile_sublist _).subset hc)
  unfold jsParseFloat at h
  simp only [splitSign_digitDot hsub] at h
  split at h
  · exact absurd h (by simp)
  · simp only [Bool.false_eq_true, if_false, Option.some.injEq] at h
    rw [← h]
    exact mul_nonneg (by positivity) (pow10Z_nonneg _)

/-- Every Tier-2 record satisfies the monetary bound. -/
theorem tier2_monetary (rt td : String) :
    monetaryFieldsNonneg (tier2Fallback rt td) := by
  unfold monetaryFieldsNonneg tier2Fallback
  refine ⟨le_refl 0, le_refl 0, by intro q hq; simp at hq,
    by intro q hq; simp at hq, ?_, by intro li hli; simp at hli⟩
  intro q hq
  simp only at hq
  split at hq
  · rename_i g hg
    exact jsParseFloat_nonneg
      (by
        intro c hc
        exact totalHere_all (scanFor_some hg).choose_spec c hc) q hq
  · simp only [Option.some.injEq] at hq
    rw [← hq]

/-- A successful Tier-1 normalization whose monetary candidates are all
nonneg-parsing yields a record with nonnegative monetary fields. -/
theorem tier1_monetary {p : JsValue} {rt td : String} {r : ExtractedData}
    (h : tier1Normalize p rt td = .ok r)
    (hc : monetaryCandidatesOk p = true) : monetaryFieldsNonneg r := by
  obtain ⟨l, hl, rfl⟩ := tier1Normalize_ok h
  unfold monetaryCandidatesOk at hc
  simp only [Bool.and_eq_true] at hc
  obtain ⟨⟨⟨⟨⟨h1, h2⟩, h3⟩, h4⟩, h5⟩, h6⟩ := hc
  unfold monetaryFieldsNonneg tier1Record
  refine ⟨jsNumOr_nonneg _ _ h1 le_rfl, jsNumOr_nonneg _ _ h2 le_rfl, ?_, ?_, ?_, ?_⟩
  · intro q hq
    simp only at hq
    split at hq
    · simp only [Option.some.injEq] at hq
      unfold nonnegCandB at h3
      rw [hq] at h3
      exact of_decide_eq_true h3
    · exact absurd hq (by simp)
  · intro q hq
    simp only at hq
    split at hq
    · simp only [Option.some.injEq] at hq
      unfold nonnegCandB at h4
      rw [hq] at h4
      exact of_decide_eq_true h4
    · exact absurd hq (by simp)
  · intro q hq
    simp only [Option.some.injEq] at hq
    rw [← hq]
    exact jsNumOr_nonneg _ _ h5 le_rfl
  · intro li hli
    unfold tier1LineItems at hl
    split at hl
    · rename_i items hitems
      rw [hitems] at h6
      obtain ⟨it, hit, hn⟩ := mapLineItems_ok_mem hl li hli
      have h6' : (nonnegCandB (getProp it "unitPrice") &&
          nonnegCandB (getProp it "totalPrice")) = true :=
        List.all_eq_true.mp h6 it hit
      obtain ⟨hu, ht⟩ := Bool.and_eq_true_iff.mp h6'
      rw [normalizeLineItem_ok hn]
      exact ⟨jsNumOr_nonneg _ _ hu le_rfl, jsNumOr_nonneg _ _ ht le_rfl⟩
    · simp only [Except.ok.injEq] at hl
      rw [← hl] at hli
      exact absurd hli (by simp)

/-- Case split on which arm produced a resolved analysis result. -/
theorem analyze_cases {text today : String} {r : ExtractedData}
    (h : analyzeReceiptWithGemini text today = .ok r) :
    r = tier2Fallback text today ∨
    ∃ sub p, jsonCandidate text = some sub ∧ jsonDecode sub = some p ∧
      tier1Normalize p text today = .ok r := by
  unfold analyzeReceiptWithGemini at h
  split at h
  · rename_i sub hsub
    split at h
    · rename_i p hp
      split at h
      · rename_i r0 hr0
        simp only [Except.ok.injEq] at h
        exact Or.inr ⟨sub, p, hsub, hp, by rw [hr0, h]⟩
      · simp only [Except.ok.injEq] at h
        exact Or.inl h.symm
    · simp only [Except.ok.injEq] at h
      exact Or.inl h.symm
  · simp only [Except.ok.injEq] at h
    exact Or.inl h.symm

/-! ### The claims -/

/-- C4: for every raw model response text the normalization stage
terminates without raising and yields a complete record: the analysis
always resolves with a value, never rejects; in particular a decoded
Tier-1 object whose `lineItems` array contains a `null` element — whose
normalization does throw internally — still yields a (fallback) record
rather than an error. -/
theorem analysisAlwaysResolves :
    (∀ text today : String, ∃ r, analyzeReceiptWithGemini text today = .ok r) ∧
    tier1Normalize (.obj [("vendor", .str "Acme"), ("lineItems", .arr [.null])])
      nullItemResponse "2026-10-11" = .error "TypeError" ∧
    analyzeReceiptWithGemini nullItemResponse "2026-10-11" =
      .ok (tier2Fallback nullItemResponse "2026-10-11") := by
  refine ⟨fun text today => ?_, rfl, rfl⟩
  unfold analyzeReceiptWithGemini
  split
  · split
    · split
      · exact ⟨_, rfl⟩
      · exact ⟨_, rfl⟩
    · exact ⟨_, rfl⟩
  · exact ⟨_, rfl⟩

/-- C9: the JSON-free raw text with VENDOR/DATE/TOTAL lines yields, via
the Tier-2 fallback, vendor Joe s Deli, date 2024-03-01, total 12.50, and
the Other members for category and payment method. -/
theorem fallbackScenarioJoesDeli :
    (analyzeReceiptWithGemini joesDeliResponse "2026-10-11").map ExtractedData.vendor =
      .ok (.str "Joe\x27s Deli") ∧
    (analyzeReceiptWithGemini joesDeliResponse "2026-10-11").map ExtractedData.date =
      .ok (.str "2024-03-01") ∧
    (analyzeReceiptWithGemini joesDeliResponse "2026-10-11").map ExtractedData.total =
      .ok (some (25/2)) ∧
    (analyzeReceiptWithGemini joesDeliResponse "2026-10-11").map ExtractedData.category =
      .ok "Other" ∧
    (analyzeReceiptWithGemini joesDeliResponse "2026-10-11").map ExtractedData.paymentMethod =
      .ok "Other" :=
  ⟨rfl, rfl, rfl, rfl, rfl⟩

/-- C10: a confidence candidate parsing to the number 0 — the JSON number
0 or the string "0" — is falsy under the `parseFloat(c) || 0.5` idiom, so
it normalizes to 0.5 exactly as an absent candidate does, not to 0. -/
theorem zeroConfidenceTreatedAsAbsent :
    normalizeConfidence (.num 0) = 1/2 ∧
    normalizeConfidence (.str "0") = 1/2 ∧
    normalizeConfidence (.num 0) = normalizeConfidence .undefined ∧
    (analyzeReceiptWithGemini zeroConfResponse "2026-10-11").map ExtractedData.confidence =
      .ok (1/2) :=
  ⟨rfl, rfl, rfl, rfl⟩

/-- C5: every resolved extraction result carries a confidence in `[0, 1]`;
a candidate parsing to 1.7 clamps to exactly 1, one parsing to −0.2 clamps
to exactly 0, an absent candidate defaults to 0.5 on the model-derived
Tier-1 path, and every manually entered record gets confidence 1. -/
theorem confidenceClampedIntoUnitInterval :
    (∀ text today : String, ∀ r, analyzeReceiptWithGemini text today = .ok r →
        0 ≤ r.confidence ∧ r.confidence ≤ 1) ∧
    normalizeConfidence (.num (17/10)) = 1 ∧
    normalizeConfidence (.num (-(2/10))) = 0 ∧
    normalizeConfidence .undefined = 1/2 ∧
    (∀ body i, manualExpenseInput body = .ok i → i.confidence = some 1) := by
  refine ⟨?_, by decide, by decide, by decide, ?_⟩
  · intro text today r h
    rcases analyze_cases h with h | ⟨sub, p, _, _, ht⟩
    · subst h
      exact ⟨by norm_num [tier2Fallback], by norm_num [tier2Fallback]⟩
    · obtain ⟨l, _, rfl⟩ := tier1Normalize_ok ht
      exact normalizeConfidence_mem_unit (getProp p "confidence")
  · intro body i h
    unfold manualExpenseInput at h
    split at h
    · exact absurd h (by simp)
    · simp only [Except.ok.injEq] at h
      rw [← h]

/-- C5 witness: the clamp theorem applied to a concrete Tier-2 run and the
manual-confidence rule applied to a concrete body. -/
theorem confidenceClampedWitness :
    (0 ≤ (tier2Fallback "scan output" "2026-10-11").confidence ∧
      (tier2Fallback "scan output" "2026-10-11").confidence ≤ 1) ∧
    (((manualExpenseInput (JsValue.obj [])).toOption.getD default).confidence = some 1) :=
  ⟨confidenceClampedIntoUnitInterval.1 "scan output" "2026-10-11" _ rfl,
   confidenceClampedIntoUnitInterval.2.2.2.2 (JsValue.obj [])
     ((manualExpenseInput (JsValue.obj [])).toOption.getD default) rfl⟩

/-- C6: the Tier-1 enum gate is a strict, case-sensitive membership test:
a candidate equal to one of the canonical labels is kept verbatim, and any
other candidate — wrong case, fuzzy variant, or non-string — is replaced
by the Other member; the validated record fields are exactly this gate
applied to the decoded candidates. -/
theorem enumGateStrictMembership :
    (∀ s, s ∈ ExpenseCategoryValues → validateEnum ExpenseCategoryValues (.str s) = s) ∧
    (∀ v, (∀ s, v = JsValue.str s → s ∉ ExpenseCategoryValues) →
        validateEnum ExpenseCategoryValues v = "Other") ∧
    (∀ s, s ∈ PaymentMethodValues → validateEnum PaymentMethodValues (.str s) = s) ∧
    (∀ v, (∀ s, v = JsValue.str s → s ∉ PaymentMethodValues) →
        validateEnum PaymentMethodValues v = "Other") ∧
    (∀ p rt td r, tier1Normalize p rt td = .ok r →
        r.category = validateEnum ExpenseCategoryValues (getProp p "category") ∧
        r.paymentMethod = validateEnum PaymentMethodValues (getProp p "paymentMethod")) := by
  refine ⟨fun s hs => by simp [validateEnum, hs], ?_,
    fun s hs => by simp [validateEnum, hs], ?_, ?_⟩
  · intro v hv
    cases v <;> try rfl
    rename_i s
    exact if_neg (hv s rfl)
  · intro v hv
    cases v <;> try rfl
    rename_i s
    exact if_neg (hv s rfl)
  · intro p rt td r h
    obtain ⟨l, _, rfl⟩ := tier1Normalize_ok h
    exact ⟨rfl, rfl⟩

/-- C6 witness: the gate applied to an exact label, a wrong-case variant,
a non-string candidate, and an exact payment label. -/
theorem enumGateStrictMembershipWitness :
    validateEnum ExpenseCategoryValues (.str "Groceries") = "Groceries" ∧
    validateEnum ExpenseCategoryValues (.str "groceries") = "Other" ∧
    validateEnum ExpenseCategoryValues (.num 5) = "Other" ∧
    validateEnum PaymentMethodValues (.str "Credit Card") = "Credit Card" :=
  ⟨enumGateStrictMembership.1 "Groceries" (by decide),
   enumGateStrictMembership.2.1 (.str "groceries") (fun s hs => by cases hs; decide),
   enumGateStrictMembership.2.1 (.num 5) (fun s hs => by cases hs),
   enumGateStrictMembership.2.2.1 "Credit Card" (by decide)⟩

/-- C1 counterexample: a decoded candidate supplying the negative number
−5 for subtotal yields a record whose subtotal is −5 — a negative monetary
value — and that negative value sits in the argument handed to the
builder's create call. -/
theorem negativeSubtotalPassesThrough :
    (analyzeReceiptWithGemini negSubtotalResponse "2026-10-11").map ExtractedData.subtotal =
      .ok (-5) ∧
    ((-5 : ℚ) < 0) ∧
    (analyzeReceiptWithGemini negSubtotalResponse "2026-10-11").map
      (fun r => (scanExpenseInput r "img").subtotal) = .ok (some (-5)) :=
  ⟨rfl, by norm_num, rfl⟩

/-- C1 amended: monetary fields of the record handed to the builder are
all nonnegative provided every monetary candidate of the decoded object is
absent, unparseable, or parses to a nonnegative number (Tier-2 records
satisfy the bound unconditionally); a candidate parsing to a negative
number is passed through with its sign, and the schema's `min: 0` bound
then rejects the create call. -/
theorem monetaryNonnegUnlessNegativeCandidate
    (text today : String) (r : ExtractedData)
    (h : analyzeReceiptWithGemini text today = .ok r)
    (hc : ∀ p, (jsonCandidate text).bind jsonDecode = some p →
        monetaryCandidatesOk p = true) :
    monetaryFieldsNonneg r ∧
    (∀ (e : ExtractedData) (url : String), e.subtotal < 0 →
      expenseSchemaValidates (scanExpenseInput e url) = false) := by
  constructor
  · rcases analyze_cases h with h | ⟨sub, p, hsub, hp, ht⟩
    · subst h
      exact tier2_monetary text today
    · exact tier1_monetary ht (hc p (by rw [hsub]; simpa using hp))
  · intro e url he
    have : requiredMin0 (some e.subtotal) = false := by
      simp [requiredMin0, not_le.mpr he]
    simp [expenseSchemaValidates, scanExpenseInput, this]

/-- C1 witness: the amended bound applied to a concrete Tier-2 run whose
only monetary value is a parsed nonnegative total. -/
theorem monetaryNonnegWitness :
    monetaryFieldsNonneg (tier2Fallback "TOTAL: 12.50" "2026-10-11") :=
  (monetaryNonnegUnlessNegativeCandidate "TOTAL: 12.50" "2026-10-11" _ rfl
    (fun p hp => by
      rw [show jsonCandidate "TOTAL: 12.50" = none from rfl] at hp
      simp at hp)).1

/-- C2 counterexample: for this raw text the greedy brace substring does
decode as a JSON object, yet the result's total is 42, taken by the Tier-2
line pattern from the text, because normalizing the decoded object's
`null` line item threw and the catch fell through to Tier 2. -/
theorem tier2RunsAfterNormalizationThrow :
    (jsonCandidate leakResponse).bind jsonDecode =
      some (.obj [("lineItems", .arr [.null])]) ∧
    (analyzeReceiptWithGemini leakResponse "2026-10-11").map ExtractedData.total =
      .ok (some 42) ∧
    some (42 : ℚ) ≠ some (0 : ℚ) :=
  ⟨rfl, rfl, by simp⟩

/-- C2 amended: when the greedy brace substring decodes and the Tier-1
normalization of the decoded object also succeeds (it fails only on a
`null`/`undefined` line-item element), the Tier-2 matching never
contributes: the analysis resolves with exactly the Tier-1 record, and if
the decoded object lacks a total key the total is the default 0, never a
value from a total-shaped line elsewhere in the text. -/
theorem tierPrecedenceWhenNormalizationSucceeds
    {text today sub : String} {parsedData : JsValue} {r : ExtractedData}
    (h1 : jsonCandidate text = some sub)
    (h2 : jsonDecode sub = some parsedData)
    (h3 : tier1Normalize parsedData text today = .ok r) :
    analyzeReceiptWithGemini text today = .ok r ∧
    (getProp parsedData "total" = .undefined → r.total = some 0) := by
  constructor
  · simp only [analyzeReceiptWithGemini, h1, h2, h3]
  · intro hu
    obtain ⟨l, _, rfl⟩ := tier1Normalize_ok h3
    show some (jsNumOr (getProp parsedData "total") 0) = some 0
    rw [hu]
    rfl

/-- C2 witness: the precedence theorem applied to a text whose decoded
object lacks the total key while a Tier-2-shaped total line coexists. -/
theorem tierPrecedenceWitness :
    analyzeReceiptWithGemini noTotalResponse "2026-10-11" =
      .ok (tier1Record (.obj [("a", .num 1)]) noTotalResponse "2026-10-11" []) ∧
    (tier1Record (.obj [("a", .num 1)]) noTotalResponse "2026-10-11" []).total = some 0 :=
  ⟨(@tierPrecedenceWhenNormalizationSucceeds noTotalResponse "2026-10-11"
      "\x7b\"a\":1\x7d" (.obj [("a", .num 1)])
      (tier1Record (.obj [("a", .num 1)]) noTotalResponse "2026-10-11" [])
      rfl rfl rfl).1,
   (@tierPrecedenceWhenNormalizationSucceeds noTotalResponse "2026-10-11"
      "\x7b\"a\":1\x7d" (.obj [("a", .num 1)])
      (tier1Record (.obj [("a", .num 1)]) noTotalResponse "2026-10-11" [])
      rfl rfl rfl).2 rfl⟩

/-- C3 counterexample: a manual body whose category is the non-label
`Bogus` keeps `Bogus` verbatim in the create argument, while the scan-path
enum gate would have replaced it by `Other`. -/
theorem manualBogusCategoryKeptVerbatim :
    (manualExpenseInput (.obj [("manual", .bool true), ("category", .str "Bogus")])).map
      ExpenseInput.category = .ok (.str "Bogus") ∧
    validateEnum ExpenseCategoryValues (.str "Bogus") = "Other" ∧
    JsValue.str "Bogus" ≠ JsValue.str "Other" :=
  ⟨rfl, rfl, by simp⟩

/-- C3 amended: the manual path applies only falsy-defaulting to
caller-supplied fields and no enum-membership validation — a truthy
category string reaches the create argument verbatim — and a category
outside the enumeration is then rejected by the schema enum constraint at
the create call rather than being replaced by the Other member. -/
theorem manualPathSkipsEnumValidation :
    (∀ body c i, getProp body "category" = .str c → c ≠ "" →
        manualExpenseInput body = .ok i → i.category = .str c) ∧
    (∀ (i : ExpenseInput) c, i.category = .str c → c ∉ ExpenseCategoryValues →
        expenseSchemaValidates i = false) := by
  constructor
  · intro body c i hb hc h
    unfold manualExpenseInput at h
    split at h
    · exact absurd h (by simp)
    · simp only [Except.ok.injEq] at h
      rw [← h]
      show jsOr (getProp body "category") (.str "Other") = .str c
      rw [hb]
      exact jsOr_str c _ hc
  · intro i c hi hc
    have hf : enumField ExpenseCategoryValues i.category = false := by
      rw [hi]; simp [enumField, hc]
    simp [expenseSchemaValidates, hf]

/-- C3 witness: the passthrough and the schema rejection at the concrete
category `Weird`. -/
theorem manualPathSkipsEnumValidationWitness :
    weirdCategoryStored.category = .str "Weird" ∧
    expenseSchemaValidates weirdCategoryStored = false := by
  have h1 := manualPathSkipsEnumValidation.1 weirdCategoryBody "Weird"
    weirdCategoryStored rfl (by decide) rfl
  exact ⟨h1, manualPathSkipsEnumValidation.2 weirdCategoryStored "Weird" h1 (by decide)⟩

/-- C7 counterexample: a manual body with every field present and valid,
including `expenseType: Business` and `confidence: 0.7`, is stored with
`expenseType` forced to `Personal` and `confidence` forced to `1`, so the
stored record differs from the submitted one beyond timestamps and the
source tag. -/
theorem manualOverridesTypeAndConfidence :
    getProp fullManualBody "expenseType" = .str "Business" ∧
    getProp fullManualBody "confidence" = .num (7/10) ∧
    (manualExpenseInput fullManualBody).map ExpenseInput.expenseType = .ok "Personal" ∧
    (manualExpenseInput fullManualBody).map ExpenseInput.confidence = .ok (some 1) ∧
    ("Personal" : String) ≠ "Business" ∧ some (1 : ℚ) ≠ some (7/10 : ℚ) :=
  ⟨rfl, rfl, rfl, rfl, by decide, by decide⟩

/-- A truthy value survives `||` with any default. -/
theorem jsOr_truthy (a w : JsValue) (h : truthy a = true) : jsOr a w = a := by
  simp [jsOr, h]

/-- C7 amended: a manual body with every field present and valid is stored
unchanged except for the timestamps and the source tag and two overrides —
`expenseType` is always `Personal` and `confidence` is always `1`,
whatever the body submitted for them. -/
theorem manualRoundTripUpToOverrides
    (body : JsValue) (i : ExpenseInput)
    {v va vp rn cur cat pm et nt ds rf rtx iu pj cl : String}
    {dv liv tgv : JsValue}
    {sb tx tp dc tl cf : ℚ} {ir bz tdd : Bool}
    (h : manualExpenseInput body = .ok i)
    (hv : getProp body "vendor" = .str v) (hv0 : v ≠ "")
    (hva : getProp body "vendorAddress" = .str va)
    (hvp : getProp body "vendorPhone" = .str vp)
    (hdv : getProp body "date" = dv)
    (hrn : getProp body "receiptNumber" = .str rn)
    (hsb : getProp body "subtotal" = .num sb)
    (htx : getProp body "tax" = .num tx)
    (htp : getProp body "tip" = .num tp)
    (hdc : getProp body "discount" = .num dc)
    (htl : getProp body "total" = .num tl)
    (hcur : getProp body "currency" = .str cur) (hcur0 : cur ≠ "")
    (hcat : getProp body "category" = .str cat) (hcat0 : cat ≠ "")
    (hpm : getProp body "paymentMethod" = .str pm) (hpm0 : pm ≠ "")
    (het : getProp body "expenseType" = .str et)
    (hli : getProp body "lineItems" = liv) (hliv : truthy liv = true)
    (hnt : getProp body "notes" = .str nt)
    (hds : getProp body "description" = .str ds)
    (htg : getProp body "tags" = tgv) (htgv : truthy tgv = true)
    (hir : getProp body "isRecurring" = .bool ir)
    (hrf : getProp body "recurringFrequency" = .str rf)
    (hrt : getProp body "rawText" = .str rtx)
    (hiu : getProp body "imageUrl" = .str iu)
    (hcf : getProp body "confidence" = .num cf)
    (hbz : getProp body "isBusinessExpense" = .bool bz)
    (htd : getProp body "isTaxDeductible" = .bool tdd)
    (hpj : getProp body "projectId" = .str pj)
    (hcl : getProp body "clientId" = .str cl) :
    i = { vendor := .str v, vendorAddress := .str va, vendorPhone := .str vp,
          dateArg := dv, receiptNumber := .str rn,
          subtotal := some sb, tax := some tx, tip := some (some tp),
          discount := some (some dc), total := some tl,
          currency := .str cur, category := .str cat, paymentMethod := .str pm,
          expenseType := "Personal",
          lineItemsV := liv, descriptionV := .str ds, notes := .str nt,
          tags := tgv, isRecurring := .bool ir, recurringFrequency := .str rf,
          rawText := .str rtx, imageUrl := .str iu,
          confidence := some 1,
          isBusinessExpense := .bool bz, isTaxDeductible := .bool tdd,
          projectId := .str pj, clientId := .str cl, source := "manual" } := by
  unfold manualExpenseInput at h
  split at h
  · exact absurd h (by simp)
  · simp only [Except.ok.injEq] at h
    subst h
    rw [hv, hva, hvp, hdv, hrn, hsb, htx, htp, hdc, htl, hcur, hcat, hpm,
      hli, hnt, hds, htg, hir, hrf, hrt, hiu, hbz, htd, hpj, hcl]
    simp only [jsOr_str _ _ hv0, jsOr_str _ _ hcur0, jsOr_str _ _ hcat0,
      jsOr_str _ _ hpm0, jsOr_str_empty, jsOr_truthy _ _ hliv,
      jsOr_truthy _ _ htgv, jsOr_bool_false, jsNumOr_num_zero]

/-- C7 witness: the round-trip theorem applied to the fully-populated
valid body, exhibiting the preserved fields and both overrides. -/
theorem manualRoundTripWitness :
    fullManualStored.vendor = .str "Shop" ∧
    fullManualStored.category = .str "Groceries" ∧
    fullManualStored.expenseType = "Personal" ∧
    fullManualStored.confidence = some 1 := by
  have h := manualRoundTripUpToOverrides fullManualBody fullManualStored
    rfl rfl (by decide) rfl rfl rfl rfl rfl rfl rfl rfl rfl rfl (by decide)
    rfl (by decide) rfl (by decide) rfl rfl rfl rfl rfl rfl rfl rfl rfl rfl
    rfl rfl rfl rfl rfl rfl
  rw [h]
  exact ⟨rfl, rfl, rfl, rfl⟩

/-- C8 counterexample: the date candidate `not-a-date` is truthy, so it is
kept verbatim rather than replaced by the processing date, and the scan
path then hands the schema an uncastable date, so the create is rejected
rather than succeeding. -/
theorem unparseableDateKeptVerbatim :
    (analyzeReceiptWithGemini badDateResponse "2026-10-11").map ExtractedData.date =
      .ok (.str "not-a-date") ∧
    JsValue.str "not-a-date" ≠ JsValue.str "2026-10-11" ∧
    (analyzeReceiptWithGemini badDateResponse "2026-10-11").map
      (fun r => expenseSchemaValidates (scanExpenseInput r "img")) = .ok false :=
  ⟨rfl, by simp, rfl⟩

/-- C8 amended: only an absent or otherwise falsy date candidate is
replaced by the current processing date; a truthy candidate — including a
non-empty unparseable string — is kept verbatim, and scan-path persistence
of a record whose date fails the date cast is rejected by the schema
rather than succeeding. -/
theorem dateDefaultOnlyWhenFalsy :
    (∀ p rt td r, tier1Normalize p rt td = .ok r →
        truthy (getProp p "date") = false → r.date = .str td) ∧
    (∀ p rt td r, tier1Normalize p rt td = .ok r →
        truthy (getProp p "date") = true → r.date = getProp p "date") ∧
    (∀ (e : ExtractedData) url, jsDateValid e.date = false →
        expenseSchemaValidates (scanExpenseInput e url) = false) := by
  refine ⟨?_, ?_, ?_⟩
  · intro p rt td r h hf
    obtain ⟨l, _, rfl⟩ := tier1Normalize_ok h
    show jsOr (getProp p "date") (.str td) = .str td
    simp [jsOr, hf]
  · intro p rt td r h ht
    obtain ⟨l, _, rfl⟩ := tier1Normalize_ok h
    show jsOr (getProp p "date") (.str td) = getProp p "date"
    simp [jsOr, ht]
  · intro e url hd
    simp [expenseSchemaValidates, scanExpenseInput, hd]

/-- C8 witness: the default rule applied to an absent date candidate, and
the schema rejection applied to a record carrying a non-date string. -/
theorem dateDefaultWitness :
    (tier1Record (.obj [("total", .num 2)]) "raw" "2026-10-11" []).date =
      .str "2026-10-11" ∧
    expenseSchemaValidates
      (scanExpenseInput (tier2Fallback "DATE: nope" "2026-10-11") "img") = false :=
  ⟨dateDefaultOnlyWhenFalsy.1 (.obj [("total", .num 2)]) "raw" "2026-10-11" _ rfl rfl,
   dateDefaultOnlyWhenFalsy.2.2 (tier2Fallback "DATE: nope" "2026-10-11") "img" (by decide)⟩

end ReceiptScanner
